import Mathlib

/-!
Verification of the nucypher-monitor metadata-persistence layer.

Shallow embedding of monitor/db.py: the CrawlerNodeStorage sqlite tables
(nodes, fleet_state, teacher, plus certificate material handled by the
nucypher base class), the CrawlerDBClient InfluxDB aggregation queries, and
the Crawler lifecycle described by the specification. Timestamps stored as
rfc3339 text and sorted through sqlite datetime() are modelled as natural
numbers whose order agrees with chronological order.
-/

namespace Monitor

/-- One row of the node table kept by the nucypher base class
SQLiteForgetfulNodeStorage. Its first column is the checksum (staker)
address, which get_known_nodes_metadata uses as dictionary key; the
remaining columns are abstracted into one payload field. -/
structure NodeRow where
  checksum_address : String
  payload : String
  deriving Repr, DecidableEq

/-- One row of the fleet_state table created in
CrawlerNodeStorage.init_db_tables (db.py lines 31-32): nickname is the
primary key; updated holds the rfc3339 timestamp, modelled as a natural
number with the same ordering. -/
structure StateRow where
  nickname : String
  symbol : String
  color_hex : String
  color_name : String
  updated : Nat
  deriving Repr, DecidableEq

/-- The persisted contents of a CrawlerNodeStorage database: the node
table, the fleet_state table, the single-row teacher pointer and the
certificate material kept by the nucypher base class. -/
structure Storage where
  nodes : List NodeRow
  states : List StateRow
  teacher : Option String
  certificates : List String
  deriving Repr, DecidableEq

/-- Errors raised by the embedded sqlite layer. operationalError stands for
sqlite3.OperationalError on a statement that does not parse. -/
inductive SqlError where
  | operationalError
  deriving Repr, DecidableEq

/-- The literal SQL text issued by CrawlerNodeStorage.clear against the
state table (db.py line 40). Note the source text reads DELETE FORM, not
DELETE FROM. -/
def clearStateSql : String := "DELETE FORM fleet_state"

/-- Minimal model of sqlite executing a delete-all statement against the
fleet_state table: exactly the well-formed statement empties the table;
any other text raises sqlite3.OperationalError, leaving the database
untouched (the transaction opened by the with block is rolled back). -/
def execDeleteStates (sql : String) (storage : Storage) : Except SqlError Storage :=
  if sql = "DELETE FROM fleet_state" then
    Except.ok { storage with states := [] }
  else
    Except.error SqlError.operationalError

/-- Modelled from the spec: SQLiteForgetfulNodeStorage.clear, the nucypher
base-class method invoked by super().clear (db.py line 41); it is not part
of this repository. Per the spec, the metadata flag empties the node and
teacher tables and the certificates flag removes stored certificate
material, each flag acting independently. -/
def superClear (storage : Storage) (metadata : Bool) (certificates : Bool) : Storage :=
  { nodes := if metadata then [] else storage.nodes,
    states := storage.states,
    teacher := if metadata then none else storage.teacher,
    certificates := if certificates then [] else storage.certificates }

/-- CrawlerNodeStorage.clear (db.py lines 36-41). When metadata is true it
first executes the malformed statement clearStateSql inside a transaction;
an error there propagates before super().clear ever runs, so an
Except.error result means no table was modified. -/
def clear (storage : Storage) (metadata : Bool) (certificates : Bool) :
    Except SqlError Storage :=
  if metadata then
    match execDeleteStates clearStateSql storage with
    | Except.error e => Except.error e
    | Except.ok s => Except.ok (superClear s metadata certificates)
  else
    Except.ok (superClear storage metadata certificates)

/-- Modelled from the spec: SQLiteForgetfulNodeStorage.init_db_tables, the
nucypher base-class method invoked by super().init_db_tables (db.py line
34); it is not part of this repository. Per the spec only missing
structures are created, so existing node rows, the teacher pointer and
certificate material are left untouched. -/
def superInitDbTables (storage : Storage) : Storage := storage

/-- CrawlerNodeStorage.init_db_tables (db.py lines 25-34): DROP TABLE IF
EXISTS fleet_state discards every fleet-state row, a fresh empty
fleet_state table is created, then the base-class table creation runs. -/
def init_db_tables (storage : Storage) : Storage :=
  superInitDbTables { storage with states := [] }

/-- REPLACE INTO fleet_state VALUES(...) as executed by sqlite (db.py line
53): any existing row with the same primary-key nickname is deleted and
the new row is inserted. -/
def replaceInto (states : List StateRow) (row : StateRow) : List StateRow :=
  (states.filter fun s => s.nickname ≠ row.nickname) ++ [row]

/-- CrawlerNodeStorage.store_state_metadata (db.py lines 43-53), which
delegates to the private write helper performing the REPLACE INTO. -/
def store_state_metadata (storage : Storage) (state : StateRow) : Storage :=
  { storage with states := replaceInto storage.states state }

/-- The SELECT issued by get_previous_states_metadata (db.py lines 81-82):
all fleet-state rows ordered by datetime(updated) descending, limited to
the given row count. -/
def selectStatesOrdered (states : List StateRow) (limit : Nat) : List StateRow :=
  (states.mergeSort fun a b => b.updated ≤ a.updated).take limit

/-- CrawlerNodeStorage.get_previous_states_metadata (db.py lines 76-100):
the rows produced by the ordered, limited SELECT. The per-row rfc3339 to
rfc2822 conversion only reformats the updated column and changes neither
row count nor order, so it is not modelled. -/
def get_previous_states_metadata (storage : Storage) (limit : Nat) : List StateRow :=
  selectStatesOrdered storage.states limit

/-- Connection-lifecycle events for the per-call query paths of db.py.
openFresh is sqlite3.connect on the db filepath (a brand-new handle),
openShared would be a reuse of the long-lived self.db_conn handle, and
closeConn is db_conn.close(). -/
inductive ConnEvent where
  | openFresh
  | openShared
  | closeConn
  deriving Repr, DecidableEq

/-- CrawlerNodeStorage.get_known_nodes_metadata (db.py lines 56-74)
together with its connection handling: it opens a fresh connection, runs
the SELECT over the node table (qFails models the query raising, for
example when the schema is missing), builds the dictionary keyed by the
first column, and the finally block closes the connection on the normal
path and on the raising path alike. The second component is the ordered
trace of connection events of the call. -/
def get_known_nodes_metadata_conn (storage : Storage) (qFails : Bool) :
    Except SqlError (List (String × NodeRow)) × List ConnEvent :=
  if qFails then
    (Except.error SqlError.operationalError, [ConnEvent.openFresh, ConnEvent.closeConn])
  else
    (Except.ok (storage.nodes.map fun r => (r.checksum_address, r)),
      [ConnEvent.openFresh, ConnEvent.closeConn])

/-- CrawlerNodeStorage.get_previous_states_metadata (db.py lines 76-100)
together with its connection handling, analogous to
get_known_nodes_metadata_conn: fresh connection, ordered limited SELECT
(qFails models the query raising), close in the finally block on both
paths. -/
def get_previous_states_metadata_conn (storage : Storage) (limit : Nat) (qFails : Bool) :
    Except SqlError (List StateRow) × List ConnEvent :=
  if qFails then
    (Except.error SqlError.operationalError, [ConnEvent.openFresh, ConnEvent.closeConn])
  else
    (Except.ok (selectStatesOrdered storage.states limit),
      [ConnEvent.openFresh, ConnEvent.closeConn])

/-- One point of the moe_network_info InfluxDB measurement: staker address,
the UTC day index of its timestamp, a sequence number ordering samples
within that day, and the locked-stake field. -/
structure Sample where
  staker : String
  day : Int
  seq : Nat
  locked_stake : Int
  deriving Repr, DecidableEq

/-- The day buckets produced by GROUP BY time(1d) over the query window of
get_historical_locked_tokens_over_range and
get_historical_num_stakers_over_range (db.py lines 112-128 and 141-154):
the window runs from midnight of (days - 1) days before today up to, but
excluding, midnight of tomorrow, so its buckets are the day indices
today - (days - 1), ..., today. -/
def bucketDays (todayDay : Int) (days : Int) : List Int :=
  (List.range days.toNat).map fun i => todayDay - (days - 1) + i

/-- The sample a LAST(locked_stake) selector picks for one staker in one
day bucket: the sample of that staker on that day with the greatest
sequence number, or none when the staker has no sample that day. -/
def lastSampleOn (samples : List Sample) (staker : String) (d : Int) : Option Sample :=
  (samples.filter fun s => s.staker = staker ∧ s.day = d).foldl
    (fun acc s =>
      match acc with
      | none => some s
      | some a => if a.seq ≤ s.seq then some s else some a)
    none

/-- The locked-stake value of the last observation of one staker in one
day bucket, as produced per group by the inner query
SELECT staker_address, LAST(locked_stake) GROUP BY staker_address, time(1d). -/
def lastLockedOnDay (samples : List Sample) (staker : String) (d : Int) : Option Int :=
  (lastSampleOn samples staker d).map fun s => s.locked_stake

/-- The distinct staker addresses appearing in the measurement, the series
keys the inner GROUP BY staker_address iterates over. -/
def stakersOf (samples : List Sample) : List String :=
  (samples.map fun s => s.staker).dedup

/-- The outer SUM(locked_stake) GROUP BY time(1d) aggregate for one day
bucket: the sum, over stakers having an observation that day, of the last
observed locked-stake value; none models the null an InfluxDB bucket
without any point reports. -/
def daySum (samples : List Sample) (d : Int) : Option Int :=
  let vals := (stakersOf samples).filterMap fun st => lastLockedOnDay samples st d
  if vals.isEmpty then none else some vals.sum

/-- The rows returned by the InfluxDB query of
get_historical_locked_tokens_over_range (db.py lines 117-128): one row per
day bucket of the window, carrying the across-staker sum or null. -/
def influxDailyLockedRows (samples : List Sample) (todayDay : Int) (days : Int) :
    List (Int × Option Int) :=
  (bucketDays todayDay days).map fun d => (d, daySum samples d)

/-- CrawlerDBClient.get_historical_locked_tokens_over_range (db.py lines
112-139): the Python loop keeps a row only when its sum field is truthy,
so both null rows and rows whose sum equals zero are dropped; kept rows
enter the ordered dictionary keyed by the bucket day. -/
def get_historical_locked_tokens_over_range (samples : List Sample)
    (todayDay : Int) (days : Int) : List (Int × Int) :=
  (influxDailyLockedRows samples todayDay days).filterMap fun r =>
    match r.2 with
    | some v => if v = 0 then none else some (r.1, v)
    | none => none

/-- The outer COUNT(staker_address) GROUP BY time(1d) aggregate for one
day bucket: the number of distinct stakers having at least one observation
that day (the inner query yields one row per such staker). -/
def dayStakerCount (samples : List Sample) (d : Int) : Nat :=
  (((samples.filter fun s => s.day = d).map fun s => s.staker).dedup).length

/-- The rows returned by the InfluxDB query of
get_historical_num_stakers_over_range (db.py lines 146-154): one row per
day bucket of the window, carrying the distinct-staker count. -/
def influxDailyStakerRows (samples : List Sample) (todayDay : Int) (days : Int) :
    List (Int × Nat) :=
  (bucketDays todayDay days).map fun d => (d, dayStakerCount samples d)

/-- CrawlerDBClient.get_historical_num_stakers_over_range (db.py lines
141-165): the Python loop keeps a row only when its count field is truthy,
dropping buckets whose count is zero. -/
def get_historical_num_stakers_over_range (samples : List Sample)
    (todayDay : Int) (days : Int) : List (Int × Nat) :=
  (influxDailyStakerRows samples todayDay days).filterMap fun r =>
    if r.2 = 0 then none else some r

/-- Midnight of the current UTC day, as computed by both range queries
(db.py lines 113-115 and 142-144): utcnow, in seconds since the epoch, is
truncated to its day boundary. -/
def rangeEnd (utcnow : Int) : Int := utcnow.ediv 86400 * 86400

/-- Start of the query window (db.py lines 116 and 145): midnight of the
day (days - 1) days before today. -/
def rangeBegin (utcnow : Int) (days : Int) : Int :=
  rangeEnd utcnow - (days - 1) * 86400

/-- Exclusive end of the query window (db.py lines 125 and 151): the WHERE
clause requires time strictly below range_end plus one day, that is,
midnight of tomorrow. -/
def queryWindowEnd (utcnow : Int) : Int := rangeEnd utcnow + 86400

/-- Lifecycle states of the Crawler, per spec section 4.4. -/
inductive CrawlerState where
  | STOPPED
  | RUNNING
  deriving Repr, DecidableEq

/-- Modelled from the spec: the Crawler of monitor/crawler.py, which is
not under src/ (only its tests are present). Its observable lifecycle
state is the STOPPED or RUNNING flag plus the number of periodic tasks
spawned (learning and metrics). -/
structure Crawler where
  state : CrawlerState
  tasksSpawned : Nat
  deriving Repr, DecidableEq

/-- Errors raised by Crawler.start; connectionError stands for the
ConnectionError raised when the time-series store is unreachable. -/
inductive StartError where
  | connectionError
  deriving Repr, DecidableEq

/-- A freshly constructed Crawler: STOPPED, with no periodic task. -/
def Crawler.initial : Crawler :=
  { state := CrawlerState.STOPPED, tasksSpawned := 0 }

/-- Modelled from the spec: Crawler.start of monitor/crawler.py, which is
not under src/. Spec section 4.4: if already running, return immediately;
connect the time-series client and ensure the database exists, failing
with ConnectionError and remaining STOPPED when the store is unreachable;
otherwise spawn the two periodic tasks and mark RUNNING. The second
component is the post-state of the Crawler. -/
def Crawler.start (c : Crawler) (storeReachable : Bool) :
    Option StartError × Crawler :=
  if c.state = CrawlerState.RUNNING then
    (none, c)
  else if storeReachable = false then
    (some StartError.connectionError, c)
  else
    (none, { state := CrawlerState.RUNNING, tasksSpawned := 2 })

/-- Modelled from the spec: the is_running read-only property of the
Crawler. -/
def Crawler.is_running (c : Crawler) : Bool :=
  c.state = CrawlerState.RUNNING

/-- A concrete populated store: one node row, one fleet-state row, a
teacher pointer and one certificate, mirroring the fixture the repository
tests build before exercising clear and initialize. -/
def populatedStorage : Storage :=
  { nodes := [{ checksum_address := "0xabc", payload := "nodeinfo" }],
    states := [{ nickname := "fleet", symbol := "S", color_hex := "aaaaaa",
                 color_name := "blue", updated := 10 }],
    teacher := some "0xabc",
    certificates := ["certmaterial"] }

/-- Empty store used by concrete witnesses. -/
def emptyStorage : Storage :=
  { nodes := [], states := [], teacher := none, certificates := [] }

/-- First fleet-state write of the upsert witness. -/
def stateWriteA : StateRow :=
  { nickname := "fleet", symbol := "S", color_hex := "aaaaaa",
    color_name := "blue", updated := 10 }

/-- Second fleet-state write of the upsert witness, same nickname, later
timestamp and different colors. -/
def stateWriteB : StateRow :=
  { nickname := "fleet", symbol := "T", color_hex := "bbbbbb",
    color_name := "red", updated := 20 }

/-- Sample used by the zero-sum counterexample: one staker observed on day
zero with locked stake zero. -/
def zeroStakeSample : Sample :=
  { staker := "0xaaa", day := 0, seq := 0, locked_stake := 0 }

/-- Claim C1. The spec (and the repository test
test_storage_db_clear_only_metadata_not_certificates) require
clear(metadata=True, certificates=False) to empty all three metadata
tables. The code instead executes the malformed statement
DELETE FORM fleet_state, so for every store contents the call raises
sqlite3.OperationalError before any table is touched and before
super().clear can run: nothing is emptied. The code contradicts its own
test, so the claim stands and the code is buggy. -/
theorem clear_metadata_path_raises_operational_error (storage : Storage) (certs : Bool) :
    clear storage true certs = Except.error SqlError.operationalError := by
  have hsql : (clearStateSql = "DELETE FROM fleet_state") = False := by
    simp [clearStateSql]
  simp [clear, execDeleteStates, hsql]

/-- Claim C2, counterexample. A populated store loses its fleet-state row
when init_db_tables runs again: the table is dropped and recreated empty,
refuting the no-data-loss claim at a concrete input. -/
theorem init_db_tables_drops_state_rows_cex :
    populatedStorage.states ≠ [] ∧ (init_db_tables populatedStorage).states = [] := by
  exact ⟨by decide, rfl⟩

/-- Claim C2, amended: calling init_db_tables on an already-initialized
populated store preserves every node row, the teacher pointer and the
certificate material (only missing structures are created for those,
modelled from the spec for the base class), but the fleet-state table is
dropped and recreated, so every previously stored fleet-state row is
lost. -/
theorem init_db_tables_preserves_nodes_teacher_drops_states (storage : Storage) :
    (init_db_tables storage).nodes = storage.nodes ∧
    (init_db_tables storage).teacher = storage.teacher ∧
    (init_db_tables storage).certificates = storage.certificates ∧
    (init_db_tables storage).states = [] :=
  ⟨rfl, rfl, rfl, rfl⟩

/-- Claim C6. For every utcnow and days argument, the window both range
queries build spans exactly days UTC calendar days: it begins at the day
boundary (days - 1) days before the current UTC day and ends exclusively
at the day boundary of tomorrow. -/
theorem query_window_spans_exactly_days (utcnow : Int) (days : Int) :
    queryWindowEnd utcnow - rangeBegin utcnow days = days * 86400 ∧
    rangeBegin utcnow days = (utcnow.ediv 86400 - (days - 1)) * 86400 ∧
    queryWindowEnd utcnow = (utcnow.ediv 86400 + 1) * 86400 := by
  refine ⟨?_, ?_, ?_⟩ <;>
    · simp only [queryWindowEnd, rangeBegin, rangeEnd]
      ring

/-- Claim C7. When the time-series store is unreachable, start on a
stopped Crawler with no spawned tasks raises ConnectionError and leaves
the Crawler exactly as it was: still STOPPED, is_running false, and no
periodic task spawned. -/
theorem start_unreachable_store_stays_stopped (c : Crawler)
    (hstop : c.state = CrawlerState.STOPPED) (htasks : c.tasksSpawned = 0) :
    (c.start false).1 = some StartError.connectionError ∧
    (c.start false).2 = c ∧
    (c.start false).2.is_running = false ∧
    (c.start false).2.tasksSpawned = 0 := by
  have hne : ¬ c.state = CrawlerState.RUNNING := by
    rw [hstop]; intro h; cases h
  refine ⟨?_, ?_, ?_, ?_⟩ <;> simp [Crawler.start, Crawler.is_running, hne, hstop, htasks]

/-- Claim C7, witness: the freshly constructed Crawler run against an
unreachable store. -/
theorem start_unreachable_store_stays_stopped_witness :
    (Crawler.initial.start false).1 = some StartError.connectionError ∧
    (Crawler.initial.start false).2 = Crawler.initial ∧
    (Crawler.initial.start false).2.is_running = false ∧
    (Crawler.initial.start false).2.tasksSpawned = 0 :=
  start_unreachable_store_stays_stopped Crawler.initial rfl rfl

/-- Claim C8. For every store contents, clear(metadata=False,
certificates=True) leaves the node rows, fleet-state rows and teacher
pointer unchanged and removes exactly the certificate material. -/
theorem clear_certificates_only_preserves_metadata (storage : Storage) :
    clear storage false true = Except.ok { storage with certificates := [] } := rfl

/-- Claim C9. Both per-call query paths open their own fresh connection
(never the shared long-lived handle) and close it before returning, on the
successful path and on the path where the query raises alike: their
connection-event trace is exactly open-fresh then close. -/
theorem per_call_connection_discipline (storage : Storage) (limit : Nat) (qFails : Bool) :
    (get_known_nodes_metadata_conn storage qFails).2
        = [ConnEvent.openFresh, ConnEvent.closeConn] ∧
    (get_previous_states_metadata_conn storage limit qFails).2
        = [ConnEvent.openFresh, ConnEvent.closeConn] := by
  cases qFails <;>
    exact ⟨rfl, rfl⟩

/-- Rows surviving the delete phase of a REPLACE INTO have a different
nickname, so filtering them for that nickname yields nothing. -/
theorem filter_ne_then_eq_nil (l : List StateRow) (nick : String) :
    ((l.filter fun s => s.nickname ≠ nick).filter fun s => s.nickname = nick) = [] := by
  induction l with
  | nil => rfl
  | cons a l ih =>
    by_cases h : a.nickname = nick <;> simp [List.filter_cons, h, ih]

/-- After a REPLACE INTO, the rows carrying the written nickname are
exactly the freshly written row. -/
theorem filter_replaceInto (l : List StateRow) (w : StateRow) :
    ((replaceInto l w).filter fun s => s.nickname = w.nickname) = [w] := by
  simp [replaceInto, List.filter_append, filter_ne_then_eq_nil l w.nickname]

/-- Claim C3. For every starting store and every nonempty sequence of
fleet-state writes sharing one nickname, the fleet-state table afterwards
contains exactly one row for that nickname, and it holds the values of the
last write: no duplicate row is ever appended. -/
theorem store_state_metadata_upsert (storage : Storage) (ws : List StateRow)
    (nick : String) (last : StateRow)
    (hall : ∀ w ∈ ws, w.nickname = nick) (hlast : ws.getLast? = some last) :
    ((ws.foldl store_state_metadata storage).states.filter
      fun s => s.nickname = nick) = [last] := by
  induction ws generalizing storage last with
  | nil => cases hlast
  | cons w rest ih =>
    cases rest with
    | nil =>
      have hw : w.nickname = nick := hall w (List.mem_cons_self w [])
      have hl : w = last := by
        simpa [List.getLast?] using hlast
      subst hl
      subst hw
      simpa [store_state_metadata] using filter_replaceInto storage.states w
    | cons w2 rest2 =>
      rw [List.foldl_cons]
      rw [List.getLast?_cons_cons] at hlast
      exact ih (store_state_metadata storage w) last
        (fun x hx => hall x (List.mem_cons_of_mem w hx)) hlast

/-- Claim C3, witness: two writes with nickname fleet, starting from the
empty store, leave exactly the second written row. -/
theorem store_state_metadata_upsert_witness :
    (([stateWriteA, stateWriteB].foldl store_state_metadata emptyStorage).states.filter
      fun s => s.nickname = "fleet") = [stateWriteB] :=
  store_state_metadata_upsert emptyStorage [stateWriteA, stateWriteB] "fleet"
    stateWriteB (by decide) (by decide)

/-- Claim C4. For every store contents and every limit, the ordered
limited SELECT behind get_previous_states_metadata returns at most limit
fleet-state records, ordered by update timestamp descending. -/
theorem get_previous_states_bounded_and_sorted (storage : Storage) (limit : Nat) :
    (get_previous_states_metadata storage limit).length ≤ limit ∧
    List.Sorted (fun a b => b.updated ≤ a.updated)
      (get_previous_states_metadata storage limit) := by
  constructor
  · simp only [get_previous_states_metadata, selectStatesOrdered, List.length_take]
    exact inf_le_left
  · have hs :
        List.Pairwise (fun a b : StateRow => (decide (b.updated ≤ a.updated)) = true)
          (storage.states.mergeSort fun a b => decide (b.updated ≤ a.updated)) :=
      List.sorted_mergeSort
        (fun a b c h1 h2 => by
          simp only [decide_eq_true_eq] at h1 h2 ⊢
          omega)
        (fun a b => by
          simp only [Bool.or_eq_true, decide_eq_true_eq]
          omega)
        storage.states
    have ht := List.Pairwise.sublist
      (List.take_sublist limit
        (storage.states.mergeSort fun a b => decide (b.updated ≤ a.updated))) hs
    simpa [get_previous_states_metadata, selectStatesOrdered, List.Sorted] using ht

/-- Membership characterization of the locked-tokens mapping: a pair
belongs to the result exactly when its day is a bucket of the window, the
across-staker daily sum is that value, and the value is nonzero (the
Python truthiness filter). -/
theorem mem_locked_tokens_iff (samples : List Sample) (todayDay days d v : Int) :
    (d, v) ∈ get_historical_locked_tokens_over_range samples todayDay days ↔
      d ∈ bucketDays todayDay days ∧ daySum samples d = some v ∧ v ≠ 0 := by
  simp only [get_historical_locked_tokens_over_range, influxDailyLockedRows,
    List.mem_filterMap, List.mem_map]
  constructor
  · rintro ⟨r, ⟨d2, hd2, rfl⟩, hf⟩
    rcases h : daySum samples d2 with _ | w
    · rw [h] at hf
      simp at hf
    · rw [h] at hf
      by_cases hw : w = 0
      · subst hw
        simp at hf
      · simp only [hw, if_false, Option.some.injEq, Prod.mk.injEq] at hf
        obtain ⟨rfl, rfl⟩ := hf
        exact ⟨hd2, h, hw⟩
  · rintro ⟨hd, hsum, hv⟩
    exact ⟨(d, daySum samples d), ⟨d, hd, rfl⟩, by simp [hsum, hv]⟩

/-- Membership characterization of the staker-count mapping: a pair
belongs to the result exactly when its day is a bucket of the window, the
distinct-staker count of that day is that value, and the count is nonzero
(the Python truthiness filter). -/
theorem mem_num_stakers_iff (samples : List Sample) (todayDay days d : Int) (c : Nat) :
    (d, c) ∈ get_historical_num_stakers_over_range samples todayDay days ↔
      d ∈ bucketDays todayDay days ∧ dayStakerCount samples d = c ∧ c ≠ 0 := by
  simp only [get_historical_num_stakers_over_range, influxDailyStakerRows,
    List.mem_filterMap, List.mem_map]
  constructor
  · rintro ⟨r, ⟨d2, hd2, rfl⟩, hf⟩
    by_cases hw : dayStakerCount samples d2 = 0
    · simp [hw] at hf
    · simp only [hw, if_false, Option.some.injEq, Prod.mk.injEq] at hf
      obtain ⟨rfl, rfl⟩ := hf
      exact ⟨hd2, rfl, hw⟩
  · rintro ⟨hd, hc, hv⟩
    subst hc
    exact ⟨(d, dayStakerCount samples d), ⟨d, hd, rfl⟩, by simp [hv]⟩

/-- Claim C5, counterexample: one staker observed on day zero with locked
stake zero, queried with days = 1 on that same day. Day zero lies in the
window and has an observed aggregate, namely sum zero, yet the returned
mapping is empty where the claim requires the entry mapping that day to
its sum. -/
theorem locked_tokens_zero_sum_day_cex :
    get_historical_locked_tokens_over_range [zeroStakeSample] 0 1 = [] ∧
    daySum [zeroStakeSample] 0 = some 0 ∧
    (0 : Int) ∈ bucketDays 0 1 := by
  refine ⟨rfl, by decide, by decide⟩

/-- Claim C5, amended: get_historical_locked_tokens_over_range maps each
day of the window whose across-staker sum of last-observed locked-stake
values exists and is nonzero to that sum; a day with no observed samples
is absent from the result, and so is a day whose observed sum equals zero
(the loop keeps a row only when its sum is truthy). -/
theorem locked_tokens_daily_mapping (samples : List Sample) (todayDay days d v : Int) :
    (d, v) ∈ get_historical_locked_tokens_over_range samples todayDay days ↔
      d ∈ bucketDays todayDay days ∧ daySum samples d = some v ∧ v ≠ 0 :=
  mem_locked_tokens_iff samples todayDay days d v

/-- Claim C10. In both range queries each result row is filtered by the
truthiness of its aggregate value, not by the presence of observations: a
day whose across-staker sum is zero is omitted from the locked-tokens
mapping even though samples were observed that day, and a day whose
distinct-staker count is zero is omitted from the staker-count mapping. -/
theorem truthiness_filter_omits_zero_valued_days (samples : List Sample)
    (todayDay days d : Int) :
    (daySum samples d = some 0 →
      d ∉ (get_historical_locked_tokens_over_range samples todayDay days).map
        Prod.fst) ∧
    (dayStakerCount samples d = 0 →
      d ∉ (get_historical_num_stakers_over_range samples todayDay days).map
        Prod.fst) := by
  constructor
  · intro h hd
    rw [List.mem_map] at hd
    obtain ⟨⟨d2, v⟩, hmem, hfst⟩ := hd
    cases hfst
    rw [mem_locked_tokens_iff] at hmem
    obtain ⟨-, hsum, hv⟩ := hmem
    rw [h] at hsum
    cases hsum
    exact hv rfl
  · intro h hd
    rw [List.mem_map] at hd
    obtain ⟨⟨d2, c⟩, hmem, hfst⟩ := hd
    cases hfst
    rw [mem_num_stakers_iff] at hmem
    obtain ⟨-, hc, hv⟩ := hmem
    rw [h] at hc
    exact hv hc.symm

/-- Claim C10, witness: the concrete zero-stake observation on day zero is
dropped from the locked-tokens mapping by the truthiness filter. -/
theorem truthiness_filter_omits_zero_valued_days_witness :
    (0 : Int) ∉ (get_historical_locked_tokens_over_range [zeroStakeSample] 0 1).map
      Prod.fst :=
  (truthiness_filter_omits_zero_valued_days [zeroStakeSample] 0 1 0).1 (by decide)

end Monitor
